import Mathlib

/-!
Verification of the uploader-server token service core.

The embedding models the token lifecycle core of the repository:
`issuePurchaseToken` / `verifyPurchaseToken` and the `/razorpay-webhook`,
`/claim-return` handlers from `src/token-service/server.js`, and the view-token
manager (`createViewToken` / `updateViewToken`) with the `/generate` handler
from the minimal token server source. The expiring key-value store is modelled
as a map from namespaced keys to values with a remaining TTL; Redis `SET`,
`SET .. NX`, `GET` and `EXISTS` become pure operations on that map. Webhook
signature verification is embedded concretely: SHA-256 and HMAC-SHA256 are
implemented over byte lists so the handler's comparison of the hex digest with
the `x-razorpay-signature` header is fully computable.
-/

namespace UploaderServer

set_option maxRecDepth 100000

/-! ## SHA-256 over byte lists

A byte is a `Nat` below 256; words are `Nat` below `2^32` with explicit
masking. This embeds the `crypto.createHmac('sha256', secret).update(body)
.digest('hex')` call of the webhook handler. -/

/-- Mask keeping the low 32 bits of a `Nat`. -/
def M32 : Nat := 4294967295

/-- Right-rotation of a 32-bit word by `n` places. -/
def rotr32 (n x : Nat) : Nat := ((x >>> n) ||| (x <<< (32 - n))) &&& M32

/-- SHA-256 big Sigma-0. -/
def bsig0 (x : Nat) : Nat := rotr32 2 x ^^^ rotr32 13 x ^^^ rotr32 22 x

/-- SHA-256 big Sigma-1. -/
def bsig1 (x : Nat) : Nat := rotr32 6 x ^^^ rotr32 11 x ^^^ rotr32 25 x

/-- SHA-256 small sigma-0. -/
def ssig0 (x : Nat) : Nat := rotr32 7 x ^^^ rotr32 18 x ^^^ (x >>> 3)

/-- SHA-256 small sigma-1. -/
def ssig1 (x : Nat) : Nat := rotr32 17 x ^^^ rotr32 19 x ^^^ (x >>> 10)

/-- SHA-256 choice function. -/
def sha2Ch (x y z : Nat) : Nat := (x &&& y) ^^^ ((x ^^^ M32) &&& z)

/-- SHA-256 majority function. -/
def sha2Maj (x y z : Nat) : Nat := (x &&& y) ^^^ (x &&& z) ^^^ (y &&& z)

/-- The 64 SHA-256 round constants. -/
def sha2K : List Nat :=
  [1116352408, 1899447441, 3049323471, 3921009573, 961987163,
   1508970993, 2453635748, 2870763221, 3624381080, 310598401,
   607225278, 1426881987, 1925078388, 2162078206, 2614888103,
   3248222580, 3835390401, 4022224774, 264347078, 604807628,
   770255983, 1249150122, 1555081692, 1996064986, 2554220882,
   2821834349, 2952996808, 3210313671, 3336571891, 3584528711,
   113926993, 338241895, 666307205, 773529912, 1294757372,
   1396182291, 1695183700, 1986661051, 2177026350, 2456956037,
   2730485921, 2820302411, 3259730800, 3345764771, 3516065817,
   3600352804, 4094571909, 275423344, 430227734, 506948616,
   659060556, 883997877, 958139571, 1322822218, 1537002063,
   1747873779, 1955562222, 2024104815, 2227730452, 2361852424,
   2428436474, 2756734187, 3204031479, 3329325298]

/-- The SHA-256 initial hash value, eight 32-bit words. -/
def sha2H0 : List Nat :=
  [1779033703, 3144134277, 1013904242, 2773480762,
   1359893119, 2600822924, 528734635, 1541459225]

/-- List lookup defaulting to zero, used for the message-schedule recurrence. -/
def nth (l : List Nat) (i : Nat) : Nat := l.getD i 0

/-- Group a byte list into big-endian 32-bit words, four bytes per word. -/
def toWords : List Nat → List Nat
  | b0 :: b1 :: b2 :: b3 :: rest =>
      ((b0 <<< 24) + (b1 <<< 16) + (b2 <<< 8) + b3) :: toWords rest
  | _ => []

/-- Extend the message schedule: `acc` holds the words produced so far in
reverse order, `n` counts remaining words to produce. -/
def schedExt (acc : List Nat) : Nat → List Nat
  | 0 => acc
  | n + 1 =>
      schedExt
        (((ssig1 (nth acc 1) + nth acc 6 + ssig0 (nth acc 14) + nth acc 15)
          &&& M32) :: acc) n

/-- The full 64-word message schedule of one 512-bit block. -/
def schedule (block : List Nat) : List Nat :=
  (schedExt (toWords block).reverse 48).reverse

/-- The working state of the SHA-256 compression loop, registers a through h. -/
structure Sha2State where
  a : Nat
  b : Nat
  c : Nat
  d : Nat
  e : Nat
  f : Nat
  g : Nat
  h : Nat
deriving Repr, DecidableEq

/-- One round of the SHA-256 compression function. -/
def sha2Round (st : Sha2State) (k w : Nat) : Sha2State :=
  let t1 := (st.h + bsig1 st.e + sha2Ch st.e st.f st.g + k + w) &&& M32
  let t2 := (bsig0 st.a + sha2Maj st.a st.b st.c) &&& M32
  ⟨(t1 + t2) &&& M32, st.a, st.b, st.c, (st.d + t1) &&& M32, st.e, st.f, st.g⟩

/-- Turn an eight-word hash value into a compression state. -/
def stateOfList (hs : List Nat) : Sha2State :=
  ⟨nth hs 0, nth hs 1, nth hs 2, nth hs 3, nth hs 4, nth hs 5, nth hs 6, nth hs 7⟩

/-- Add the compression result back into the chaining value, mod `2^32`. -/
def addState (hs : List Nat) (st : Sha2State) : List Nat :=
  [(nth hs 0 + st.a) &&& M32, (nth hs 1 + st.b) &&& M32,
   (nth hs 2 + st.c) &&& M32, (nth hs 3 + st.d) &&& M32,
   (nth hs 4 + st.e) &&& M32, (nth hs 5 + st.f) &&& M32,
   (nth hs 6 + st.g) &&& M32, (nth hs 7 + st.h) &&& M32]

/-- Process one 64-byte block: schedule, 64 rounds, feed-forward. -/
def processBlock (hs : List Nat) (block : List Nat) : List Nat :=
  let ws := schedule block
  let st := (sha2K.zip ws).foldl (fun st p => sha2Round st p.1 p.2) (stateOfList hs)
  addState hs st

/-- Big-endian bytes of `v`, `n` bytes wide. -/
def beBytes (n v : Nat) : List Nat :=
  match n with
  | 0 => []
  | m + 1 => ((v >>> (8 * m)) &&& 255) :: beBytes m v

/-- SHA-256 padding: append `0x80`, zeros to 56 mod 64, then the 64-bit
big-endian bit length. -/
def padMsg (m : List Nat) : List Nat :=
  let len := m.length
  let zeros := (119 - len % 64) % 64
  m ++ 0x80 :: List.replicate zeros 0 ++ beBytes 8 (len * 8)

/-- Split a byte list into 64-byte blocks, structurally recursive on a fuel
bound so the definition reduces in the kernel. -/
def blocks64Aux : Nat → List Nat → List (List Nat)
  | 0, _ => []
  | _, [] => []
  | fuel + 1, l => l.take 64 :: blocks64Aux fuel (l.drop 64)

/-- Split a byte list into 64-byte blocks. -/
def blocks64 (l : List Nat) : List (List Nat) := blocks64Aux l.length l

/-- Render an eight-word hash value as 32 big-endian bytes. -/
def wordsToBytes : List Nat → List Nat
  | [] => []
  | w :: rest => beBytes 4 w ++ wordsToBytes rest

/-- SHA-256 of a byte list, as a 32-byte list. -/
def sha256 (msg : List Nat) : List Nat :=
  wordsToBytes ((blocks64 (padMsg msg)).foldl processBlock sha2H0)

/-- Lower-case hex character for a value below 16. -/
def hexChar (n : Nat) : Char :=
  if n < 10 then Char.ofNat (48 + n) else Char.ofNat (87 + n)

/-- Two-character lower-case hex rendering of one byte. -/
def byteHex (b : Nat) : List Char := [hexChar ((b >>> 4) &&& 15), hexChar (b &&& 15)]

/-- Lower-case hex string of a byte list, as produced by `.digest('hex')`. -/
def bytesToHex (l : List Nat) : String := ⟨(l.map byteHex).flatten⟩

/-! ## HMAC-SHA256 (RFC 2104) -/

/-- Normalise an HMAC key to the 64-byte block size: hash overlong keys, then
pad with zero bytes. -/
def hmacKey (key : List Nat) : List Nat :=
  let k0 := if key.length > 64 then sha256 key else key
  k0 ++ List.replicate (64 - k0.length) 0

/-- HMAC-SHA256 of a message under a key, both byte lists. -/
def hmacSha256 (key msg : List Nat) : List Nat :=
  let k0 := hmacKey key
  let ipad := k0.map (fun b => b ^^^ 0x36)
  let opad := k0.map (fun b => b ^^^ 0x5c)
  sha256 (opad ++ sha256 (ipad ++ msg))

/-- UTF-8 bytes of a single character. -/
def charUtf8 (c : Char) : List Nat :=
  let n := c.toNat
  if n < 0x80 then [n]
  else if n < 0x800 then [0xc0 ||| (n >>> 6), 0x80 ||| (n &&& 0x3f)]
  else if n < 0x10000 then
    [0xe0 ||| (n >>> 12), 0x80 ||| ((n >>> 6) &&& 0x3f), 0x80 ||| (n &&& 0x3f)]
  else
    [0xf0 ||| (n >>> 18), 0x80 ||| ((n >>> 12) &&& 0x3f),
     0x80 ||| ((n >>> 6) &&& 0x3f), 0x80 ||| (n &&& 0x3f)]

/-- UTF-8 bytes of a string. -/
def utf8Bytes (s : String) : List Nat := (s.data.map charUtf8).flatten

/-- Hex digest of HMAC-SHA256 with a string secret over raw body bytes; this is
`crypto.createHmac('sha256', secret).update(body).digest('hex')`. -/
def hmacSha256Hex (secret : String) (body : List Nat) : String :=
  bytesToHex (hmacSha256 (utf8Bytes secret) body)

/-! ## Percent-encoding

`encodeURIComponent` keeps the unreserved characters and percent-encodes the
UTF-8 bytes of everything else, with upper-case hex digits. -/

/-- Upper-case hex character for a value below 16, as used by percent-encoding. -/
def pctHexChar (n : Nat) : Char :=
  if n < 10 then Char.ofNat (48 + n) else Char.ofNat (55 + n)

/-- Percent-encode one byte as three characters. -/
def pctEncodeByte (b : Nat) : List Char :=
  ['%', pctHexChar ((b >>> 4) &&& 15), pctHexChar (b &&& 15)]

/-- Characters `encodeURIComponent` leaves unescaped: letters, digits, and
the marks minus, underscore, dot, bang, tilde, star, apostrophe, parentheses. -/
def uriUnreserved (c : Char) : Bool :=
  let n := c.toNat
  (65 ≤ n && n ≤ 90) || (97 ≤ n && n ≤ 122) || (48 ≤ n && n ≤ 57) ||
  n = 45 || n = 95 || n = 46 || n = 33 || n = 126 || n = 42 || n = 39 ||
  n = 40 || n = 41

/-- JavaScript `encodeURIComponent`. -/
def encodeURIComponent (s : String) : String :=
  ⟨(s.data.map fun c =>
      if uriUnreserved c then [c] else ((charUtf8 c).map pctEncodeByte).flatten).flatten⟩

/-! ## The expiring key-value store

Redis is modelled as a map from string keys to entries, an entry being a
stored value together with its remaining TTL in seconds. Key expiry is
represented by absence: an expired key behaves exactly like one never set,
which is how every code path observes it. Values are modelled by `StoredVal`:
the record constructors stand for the `JSON.stringify` serialization of a
purchase or view record, `rawStr` is a plain string value (the payment→token
mapping stores the bare token) or bytes that do not parse as a JSON record. -/

/-- JavaScript truthiness of an optional string: `null`/`undefined` and the
empty string are falsy; a nonempty string passes through. -/
def jsTruthy : Option String → Option String
  | none => none
  | some s => if s = "" then none else some s

/-- JavaScript `a || b` on optional strings. -/
def jsOr (a b : Option String) : Option String :=
  match jsTruthy a with
  | some s => some s
  | none => b

/-- Metadata passed to `issuePurchaseToken`: an optional payment identifier
and an optional webhook event name (`none` models an absent or `null` field). -/
structure Meta where
  paymentId : Option String := none
  event : Option String := none
deriving Repr, DecidableEq

/-- The stored purchase token record: `Object.assign({ createdAt: Date.now() },
meta)`. -/
structure PurchaseRec where
  createdAt : Nat
  meta : Meta
deriving Repr, DecidableEq

/-- The stored view token record: creation writes `{ setupPayload, orderMeta,
createdAt }`, update-in-place overwrites it with `{ setupPayload, updatedAt }`.
The setup payload is kept opaque as its JSON text. -/
inductive ViewRec where
  | made (setupPayload : String) (orderMeta : PurchaseRec) (createdAt : Nat)
  | updated (setupPayload : String) (updatedAt : Nat)
deriving Repr, DecidableEq

/-- A value in the store. The two record constructors stand for JSON texts of
the corresponding records; `rawStr` is any other string — a bare token (the
payment mapping) or corrupted bytes that `JSON.parse` rejects. -/
inductive StoredVal where
  | purchaseRec (r : PurchaseRec)
  | viewRec (v : ViewRec)
  | rawStr (s : String)
deriving Repr, DecidableEq

/-- A store entry: the value plus its remaining TTL in seconds. -/
structure Entry where
  val : StoredVal
  ttl : Nat
deriving Repr, DecidableEq

/-- The expiring key-value store: a map from keys to live entries. -/
def Store := String → Option Entry

/-- The store with no live keys. -/
def emptyStore : Store := fun _ => none

/-- Redis `SET key value EX ttl`: unconditional write. -/
def sset (s : Store) (k : String) (e : Entry) : Store :=
  fun k' => if k' = k then some e else s k'

/-- Redis `SET key value EX ttl NX`: write only if the key is absent; the
boolean reports whether the write happened (`'OK'` versus `null`). -/
def redisSetNX (s : Store) (k : String) (v : StoredVal) (ttl : Nat) : Bool × Store :=
  match s k with
  | some _ => (false, s)
  | none => (true, sset s k ⟨v, ttl⟩)

/-- A store operation, recorded by the read paths so that absence of writes
and of lookups is itself provable. -/
inductive StoreOp where
  | get (k : String)
  | setEx (k : String)
  | setNX (k : String)
  | checkExists (k : String)
deriving Repr, DecidableEq

/-- Reading a stored value as the raw string Redis returns. Payment-mapping
keys only ever hold `rawStr` values; the JSON record constructors stand for
serialized texts whose exact rendering the embedding does not reproduce, and
no code path reads them as raw strings. -/
def svText : StoredVal → String
  | .rawStr t => t
  | .purchaseRec _ => ""
  | .viewRec _ => ""

/-- Models `JSON.parse(raw)` inside `try { … } catch { return null }` at a
purchase key: a serialized purchase record parses back to itself, a `rawStr`
(bare token or corrupted bytes) is not a valid JSON record and lands in the
catch. -/
def parsePurchaseJson : StoredVal → Option PurchaseRec
  | .purchaseRec r => some r
  | _ => none

/-! ## Configuration

The configuration values of `src/token-service/server.js` and the minimal
token server, at their documented defaults (`PURCHASE_TTL_SECONDS` defaulting
to 7200, `VIEW_TTL_SECONDS` to 30 days). -/

/-- Purchase token TTL in seconds. -/
def PURCHASE_TTL : Nat := 7200

/-- View token TTL in seconds. -/
def VIEW_TTL : Nat := 2592000

/-- Base URL of the setup page embedded in claim URLs. -/
def PUBLIC_SETUP_URL : String :=
  "https://Kadge-Jatin.github.io/Valentines-Gifts_3/setup.html"

/-- Base URL of the view page embedded in view URLs. -/
def PUBLIC_VIEW_BASE : String :=
  "https://Kadge-Jatin.github.io/Valentines-Gifts_3/view.html"

/-- Key of a purchase token record: `purchase:<token>`. -/
def purchaseKey (token : String) : String := "purchase:" ++ token

/-- Key of a payment→token mapping: `payment:<paymentId>`. -/
def paymentKey (paymentId : String) : String := "payment:" ++ paymentId

/-- Key of a view token record: `view:<token>`. -/
def viewKey (token : String) : String := "view:" ++ token

/-- The claim URL a handler redirects to or returns:
`PUBLIC_SETUP_URL#token=<encoded token>`. -/
def claimUrlOf (token : String) : String :=
  PUBLIC_SETUP_URL ++ "#token=" ++ encodeURIComponent token

/-- The shareable view URL: `PUBLIC_VIEW_BASE?token=<encoded token>`. -/
def viewUrlOf (token : String) : String :=
  PUBLIC_VIEW_BASE ++ "?token=" ++ encodeURIComponent token

/-! ## Token issuance and verification (src/token-service/server.js) -/

/-- Result of `issuePurchaseToken`: the fresh token and whether this call
created the payment→token mapping. -/
structure IssueResult where
  token : String
  createdMapping : Bool
deriving Repr, DecidableEq

/-- The `issuePurchaseToken` of `src/token-service/server.js`. `freshToken` is
the `uuidv4()` draw, `now` is `Date.now()`, and `mapWriteFails` says whether
the conditional mapping write throws (the `catch` branch that logs and
swallows the error). The purchase record is always written with
`PURCHASE_TTL`; when the metadata carries a truthy `paymentId` the mapping is
written with `NX`, so an existing mapping is left untouched. -/
def issuePurchaseToken (s : Store) (meta : Meta) (freshToken : String)
    (now : Nat) (mapWriteFails : Bool) : IssueResult × Store :=
  let key := purchaseKey freshToken
  let stored : PurchaseRec := { createdAt := now, meta := meta }
  let s1 := sset s key ⟨.purchaseRec stored, PURCHASE_TTL⟩
  match jsTruthy meta.paymentId with
  | none => ({ token := freshToken, createdMapping := false }, s1)
  | some pid =>
    if mapWriteFails then
      ({ token := freshToken, createdMapping := false }, s1)
    else
      let r := redisSetNX s1 (paymentKey pid) (.rawStr freshToken) PURCHASE_TTL
      ({ token := freshToken, createdMapping := r.1 }, r.2)

/-- The `verifyPurchaseToken` shared by both servers: a falsy token is
rejected before any store access, a missing key is rejected, and an
unparseable record is rejected by the catch. The returned operation list
records every store access performed. -/
def verifyPurchaseToken (s : Store) (token : Option String) :
    Option PurchaseRec × List StoreOp :=
  match jsTruthy token with
  | none => (none, [])
  | some t =>
    let k := purchaseKey t
    match s k with
    | none => (none, [.get k])
    | some e => (parsePurchaseJson e.val, [.get k])

/-! ## The claim-return resolver (strict mode) -/

/-- The query parameters of `/claim-return`: the seven provider-specific
aliases under which the payment identifier may arrive. -/
structure ClaimQuery where
  payment_id : Option String := none
  paymentId : Option String := none
  payment : Option String := none
  razorpay_payment_id : Option String := none
  razorpay_paymentId : Option String := none
  razorpay_payment_link_id : Option String := none
  razorpay_payment_link_reference_id : Option String := none
deriving Repr, DecidableEq

/-- The alias chain of `/claim-return`: the first truthy alias wins, and a
falsy result is reported as missing. -/
def extractPaymentId (q : ClaimQuery) : Option String :=
  jsTruthy (jsOr q.payment_id (jsOr q.paymentId (jsOr q.payment
    (jsOr q.razorpay_payment_id (jsOr q.razorpay_paymentId
      (jsOr q.razorpay_payment_link_id q.razorpay_payment_link_reference_id))))))

/-- Response of the `/claim-return` handler. -/
inductive ClaimResp where
  | missingPaymentId
  | gone
  | redirectTo (url : String)
deriving Repr, DecidableEq

/-- The strict `/claim-return` handler of `src/token-service/server.js`: look
the mapping up, 410 when absent, redirect with the mapped token when present.
The handler returns the store it was given and the list of store operations it
performed. -/
def claimReturn (s : Store) (q : ClaimQuery) : ClaimResp × Store × List StoreOp :=
  match extractPaymentId q with
  | none => (.missingPaymentId, s, [])
  | some pid =>
    let k := paymentKey pid
    match s k with
    | none => (.gone, s, [.get k])
    | some e => (.redirectTo (claimUrlOf (svText e.val)), s, [.get k])

/-! ## The Razorpay webhook handler (src/token-service/server.js) -/

/-- A webhook request: the signature header, the raw body bytes kept by the
body-parser hook, and the parsed fields the handler reads (`body.event`,
`body.payload.payment.entity.id`, `body.payload.payment_link.entity.id`). -/
structure WebhookReq where
  signatureHeader : Option String := none
  rawBody : List Nat := []
  event : Option String := none
  payloadPaymentId : Option String := none
  payloadPaymentLinkId : Option String := none
deriving Repr, DecidableEq

/-- Response of the `/razorpay-webhook` handler. -/
inductive WebhookResp where
  | invalidSignature
  | okReused (claimUrl : String)
  | okCreated (claimUrl : String)
deriving Repr, DecidableEq

/-- The payment identifier the webhook extracts from its payload, defaulting
to `razorpay_<Date.now()>`. -/
def webhookPaymentId (req : WebhookReq) (now : Nat) : String :=
  match jsTruthy req.payloadPaymentId with
  | some pid => pid
  | none =>
    match jsTruthy req.payloadPaymentLinkId with
    | some pid => pid
    | none => "razorpay_" ++ Nat.repr now

/-- The `/razorpay-webhook` handler of `src/token-service/server.js`. With a
configured secret it compares the `x-razorpay-signature` header (absent
defaulting to the empty string) against the HMAC-SHA256 hex digest of the raw
body and rejects mismatches; with no secret the check is skipped entirely.
Past the check it reuses an existing mapping or issues a fresh token. -/
def razorpayWebhook (secret : String) (s : Store) (req : WebhookReq)
    (freshToken : String) (now : Nat) (mapWriteFails : Bool) :
    WebhookResp × Store :=
  let sig := req.signatureHeader.getD ""
  let proceed : WebhookResp × Store :=
    let paymentId := webhookPaymentId req now
    match s (paymentKey paymentId) with
    | some e => (.okReused (claimUrlOf (svText e.val)), s)
    | none =>
      let r := issuePurchaseToken s
        { paymentId := some paymentId, event := jsTruthy req.event }
        freshToken now mapWriteFails
      (.okCreated (claimUrlOf r.1.token), r.2)
  if secret = "" then proceed
  else if sig = hmacSha256Hex secret req.rawBody then proceed
  else (.invalidSignature, s)

/-! ## The view token manager and /generate (minimal token server) -/

/-- The `createViewToken` of the minimal token server: mint a fresh view token
and store `{ setupPayload, orderMeta, createdAt }` with the view TTL. -/
def createViewToken (s : Store) (setupPayload : String) (orderMeta : PurchaseRec)
    (freshToken : String) (now : Nat) : String × Store :=
  (freshToken,
   sset s (viewKey freshToken) ⟨.viewRec (.made setupPayload orderMeta now), VIEW_TTL⟩)

/-- The `updateViewToken` of the minimal token server: if the key exists,
overwrite the record with `{ setupPayload, updatedAt }` refreshing the TTL and
return the token; otherwise return `null` without writing. -/
def updateViewToken (s : Store) (token : String) (setupPayload : String)
    (now : Nat) : Option String × Store :=
  let k := viewKey token
  if (s k).isSome then
    (some token, sset s k ⟨.viewRec (.updated setupPayload now), VIEW_TTL⟩)
  else (none, s)

/-- A `/generate` request: the authorization header and the `purchaseToken`,
`setup` and `viewToken` fields of the JSON body (`none` models an absent or
falsy field; the setup payload is its opaque JSON text). -/
structure GenReq where
  authorization : Option String := none
  purchaseToken : Option String := none
  setup : Option String := none
  viewToken : Option String := none
deriving Repr, DecidableEq

/-- Response of the `/generate` handler. -/
inductive GenResp where
  | missingPurchaseToken
  | invalidPurchaseToken
  | ok (viewToken : String) (viewUrl : String)
deriving Repr, DecidableEq

/-- The JSON text of the empty object, the default `req.body.setup || {}`. -/
def emptySetup : String := "\x7b\x7d"

/-- JavaScript `String.prototype.startsWith`, over the characters of the
string (kernel-reducible, unlike the byte-position core function). -/
def strStartsWith (s pre : String) : Bool := pre.data.isPrefixOf s.data

/-- JavaScript `s.slice(n)`: drop the first `n` characters. -/
def strDrop (s : String) (n : Nat) : String := ⟨s.data.drop n⟩

/-- The purchase token `/generate` works with:
`auth.startsWith('Bearer ') ? auth.slice(7) : (req.body.purchaseToken || null)`. -/
def genPurchaseToken (req : GenReq) : Option String :=
  let auth := req.authorization.getD ""
  if strStartsWith auth "Bearer " then some (strDrop auth 7) else req.purchaseToken

/-- The `/generate` handler of the minimal token server: take the purchase
token from a `Bearer` authorization header or, failing that, from the body;
401 when both are absent, 403 when verification rejects it; then update the
supplied view token in place when it exists, otherwise mint a fresh one. -/
def generate (s : Store) (req : GenReq) (freshViewToken : String) (now : Nat) :
    GenResp × Store :=
  match jsTruthy (genPurchaseToken req) with
  | none => (.missingPurchaseToken, s)
  | some pt =>
    match (verifyPurchaseToken s (some pt)).1 with
    | none => (.invalidPurchaseToken, s)
    | some meta =>
      let setupPayload := (jsTruthy req.setup).getD emptySetup
      match jsTruthy req.viewToken with
      | some evt =>
        let u := updateViewToken s evt setupPayload now
        match u.1 with
        | some t => (.ok t (viewUrlOf t), u.2)
        | none =>
          let c := createViewToken s setupPayload meta freshViewToken now
          (.ok c.1 (viewUrlOf c.1), c.2)
      | none =>
        let c := createViewToken s setupPayload meta freshViewToken now
        (.ok c.1 (viewUrlOf c.1), c.2)

/-! ## Store and key lemmas -/

/-- Reading the key just written. -/
theorem sset_self (s : Store) (k : String) (e : Entry) : sset s k e k = some e := by
  simp [sset]

/-- Writing one key leaves every other key unchanged. -/
theorem sset_other (s : Store) (k k' : String) (e : Entry) (h : k' ≠ k) :
    sset s k e k' = s k' := by
  simp [sset, h]

/-- The `purchase:` and `payment:` namespaces never collide. -/
theorem purchaseKey_ne_paymentKey (t p : String) : purchaseKey t ≠ paymentKey p := by
  intro hEq
  have h2 : ("purchase:" ++ t).data = ("payment:" ++ p).data :=
    congrArg String.data hEq
  rw [String.data_append, String.data_append] at h2
  have hu : "purchase:".data = ['p','u','r','c','h','a','s','e',':'] := rfl
  have hy : "payment:".data = ['p','a','y','m','e','n','t',':'] := rfl
  rw [hu, hy] at h2
  simp at h2

/-- The `purchase:` and `view:` namespaces never collide. -/
theorem purchaseKey_ne_viewKey (t v : String) : purchaseKey t ≠ viewKey v := by
  intro hEq
  have h2 : ("purchase:" ++ t).data = ("view:" ++ v).data :=
    congrArg String.data hEq
  rw [String.data_append, String.data_append] at h2
  have hu : "purchase:".data = ['p','u','r','c','h','a','s','e',':'] := rfl
  have hy : "view:".data = ['v','i','e','w',':'] := rfl
  rw [hu, hy] at h2
  simp at h2

/-- Payment keys of distinct payment identifiers are distinct. -/
theorem paymentKey_inj {a b : String} (h : paymentKey a = paymentKey b) : a = b := by
  have h2 : ("payment:" ++ a).data = ("payment:" ++ b).data := congrArg String.data h
  rw [String.data_append, String.data_append] at h2
  have h3 := List.append_cancel_left h2
  cases a; cases b; exact congrArg String.mk h3

/-! ## Claim theorems -/

/-- C1: at most one payment→token mapping is ever created per payment
identifier. First conjunct: `issuePurchaseToken` never overwrites an existing
mapping — whatever entry a payment key held before the call, it holds after.
Second conjunct: two issue calls carrying the same payment identifier mint two
distinct purchase tokens, exactly the first call creates the mapping, and the
mapping lookup afterwards returns the first (winning) token. -/
theorem issuePurchaseToken_mapping_created_once :
    (∀ (s : Store) (meta : Meta) (freshToken : String) (now : Nat)
        (mapWriteFails : Bool) (p : String) (e : Entry),
        s (paymentKey p) = some e →
        (issuePurchaseToken s meta freshToken now mapWriteFails).2 (paymentKey p)
          = some e) ∧
    (∀ (s : Store) (m1 m2 : Meta) (pid t1 t2 : String) (n1 n2 : Nat),
        jsTruthy m1.paymentId = some pid → jsTruthy m2.paymentId = some pid →
        t1 ≠ t2 → s (paymentKey pid) = none →
        let r1 := issuePurchaseToken s m1 t1 n1 false
        let r2 := issuePurchaseToken r1.2 m2 t2 n2 false
        r1.1.token ≠ r2.1.token ∧ r1.1.createdMapping = true ∧
        r2.1.createdMapping = false ∧
        r2.2 (paymentKey pid) = some ⟨.rawStr t1, PURCHASE_TTL⟩) := by
  constructor
  · intro s meta freshToken now mapWriteFails p e he
    have hs1 : sset s (purchaseKey freshToken)
        ⟨.purchaseRec ⟨now, meta⟩, PURCHASE_TTL⟩ (paymentKey p) = some e := by
      rw [sset_other _ _ _ _ (purchaseKey_ne_paymentKey freshToken p).symm]
      exact he
    cases hm : jsTruthy meta.paymentId with
    | none => simpa [issuePurchaseToken, hm] using hs1
    | some pid =>
      cases mapWriteFails with
      | true => simpa [issuePurchaseToken, hm] using hs1
      | false =>
        by_cases hpp : paymentKey p = paymentKey pid
        · rw [hpp] at hs1
          simp [issuePurchaseToken, hm, redisSetNX, hs1, hpp]
        · cases h2 : sset s (purchaseKey freshToken)
              ⟨.purchaseRec ⟨now, meta⟩, PURCHASE_TTL⟩ (paymentKey pid) with
          | some e2 => simpa [issuePurchaseToken, hm, redisSetNX, h2] using hs1
          | none =>
            simp [issuePurchaseToken, hm, redisSetNX, h2]
            rw [sset_other _ _ _ _ hpp]
            simpa using hs1
  · intro s m1 m2 pid t1 t2 n1 n2 h1 h2 hne hnone
    have hs1 : sset s (purchaseKey t1)
        ⟨.purchaseRec ⟨n1, m1⟩, PURCHASE_TTL⟩ (paymentKey pid) = none := by
      rw [sset_other _ _ _ _ (purchaseKey_ne_paymentKey t1 pid).symm]; exact hnone
    have hr1 : issuePurchaseToken s m1 t1 n1 false =
        ({ token := t1, createdMapping := true },
         sset (sset s (purchaseKey t1) ⟨.purchaseRec ⟨n1, m1⟩, PURCHASE_TTL⟩)
           (paymentKey pid) ⟨.rawStr t1, PURCHASE_TTL⟩) := by
      simp [issuePurchaseToken, h1, redisSetNX, hs1]
    have hmap1 : (issuePurchaseToken s m1 t1 n1 false).2 (paymentKey pid)
        = some ⟨.rawStr t1, PURCHASE_TTL⟩ := by
      rw [hr1]; exact sset_self _ _ _
    have hs2 : sset (sset (sset s (purchaseKey t1) ⟨.purchaseRec ⟨n1, m1⟩, PURCHASE_TTL⟩)
          (paymentKey pid) ⟨.rawStr t1, PURCHASE_TTL⟩) (purchaseKey t2)
        ⟨.purchaseRec ⟨n2, m2⟩, PURCHASE_TTL⟩ (paymentKey pid)
        = some ⟨.rawStr t1, PURCHASE_TTL⟩ := by
      rw [sset_other _ _ _ _ (purchaseKey_ne_paymentKey t2 pid).symm]
      exact sset_self _ _ _
    have hr2 : issuePurchaseToken
        (sset (sset s (purchaseKey t1) ⟨.purchaseRec ⟨n1, m1⟩, PURCHASE_TTL⟩)
          (paymentKey pid) ⟨.rawStr t1, PURCHASE_TTL⟩) m2 t2 n2 false =
        ({ token := t2, createdMapping := false },
         sset (sset (sset s (purchaseKey t1) ⟨.purchaseRec ⟨n1, m1⟩, PURCHASE_TTL⟩)
            (paymentKey pid) ⟨.rawStr t1, PURCHASE_TTL⟩) (purchaseKey t2)
           ⟨.purchaseRec ⟨n2, m2⟩, PURCHASE_TTL⟩) := by
      simp [issuePurchaseToken, h2, redisSetNX, hs2]
    dsimp only
    rw [hr1, hr2]
    refine ⟨by simpa using hne, rfl, rfl, hs2⟩

/-- Witness for C1 at concrete inputs: a pre-existing mapping for `p1`
survives a later issue call, and two issue calls for `p1` on the empty store
mint `t1` and `t2` with the mapping holding `t1`. -/
theorem issuePurchaseToken_mapping_created_once_witness :
    ((issuePurchaseToken
        (sset emptyStore (paymentKey "p1") ⟨.rawStr "t0", PURCHASE_TTL⟩)
        ⟨some "p1", none⟩ "t9" 5 false).2 (paymentKey "p1")
      = some ⟨.rawStr "t0", PURCHASE_TTL⟩) ∧
    (let r1 := issuePurchaseToken emptyStore ⟨some "p1", none⟩ "t1" 1 false
     let r2 := issuePurchaseToken r1.2 ⟨some "p1", some "payment.captured"⟩ "t2" 2 false
     r1.1.token ≠ r2.1.token ∧ r1.1.createdMapping = true ∧
     r2.1.createdMapping = false ∧
     r2.2 (paymentKey "p1") = some ⟨.rawStr "t1", PURCHASE_TTL⟩) :=
  ⟨issuePurchaseToken_mapping_created_once.1 _ _ "t9" 5 false "p1" _ rfl,
   issuePurchaseToken_mapping_created_once.2 emptyStore _ _ "p1" "t1" "t2" 1 2
     rfl rfl (by decide) rfl⟩

/-- C4: verify-after-issue is an accepting round trip. Issuing a purchase
token with any metadata and immediately verifying the returned token yields
the stored record, which is exactly the metadata passed plus the `createdAt`
timestamp; the verification performs a single lookup of the purchase key. -/
theorem issue_then_verify_roundtrip
    (s : Store) (meta : Meta) (freshToken : String) (now : Nat)
    (mapWriteFails : Bool) (ht : freshToken ≠ "") :
    verifyPurchaseToken (issuePurchaseToken s meta freshToken now mapWriteFails).2
        (some (issuePurchaseToken s meta freshToken now mapWriteFails).1.token) =
      (some ⟨now, meta⟩, [.get (purchaseKey freshToken)]) := by
  have htok : (issuePurchaseToken s meta freshToken now mapWriteFails).1.token
      = freshToken := by
    cases hm : jsTruthy meta.paymentId with
    | none => simp [issuePurchaseToken, hm]
    | some pid =>
      cases mapWriteFails with
      | true => simp [issuePurchaseToken, hm]
      | false =>
        cases h2 : sset s (purchaseKey freshToken)
            ⟨.purchaseRec ⟨now, meta⟩, PURCHASE_TTL⟩ (paymentKey pid) with
        | some e2 => simp [issuePurchaseToken, hm, redisSetNX, h2]
        | none => simp [issuePurchaseToken, hm, redisSetNX, h2]
  have hstore : (issuePurchaseToken s meta freshToken now mapWriteFails).2
      (purchaseKey freshToken)
      = some ⟨.purchaseRec ⟨now, meta⟩, PURCHASE_TTL⟩ := by
    cases hm : jsTruthy meta.paymentId with
    | none => simp [issuePurchaseToken, hm, sset_self]
    | some pid =>
      cases mapWriteFails with
      | true => simp [issuePurchaseToken, hm, sset_self]
      | false =>
        cases h2 : sset s (purchaseKey freshToken)
            ⟨.purchaseRec ⟨now, meta⟩, PURCHASE_TTL⟩ (paymentKey pid) with
        | some e2 => simp [issuePurchaseToken, hm, redisSetNX, h2, sset_self]
        | none =>
          simp [issuePurchaseToken, hm, redisSetNX, h2]
          rw [sset_other _ _ _ _ (purchaseKey_ne_paymentKey freshToken pid)]
          exact sset_self _ _ _
  rw [htok]
  simp [verifyPurchaseToken, jsTruthy, ht, hstore, parsePurchaseJson]

/-- Witness for C4: issuing on the empty store with payment id `p1` and event
`payment.captured` and verifying the result returns exactly that metadata. -/
theorem issue_then_verify_roundtrip_witness :
    verifyPurchaseToken
        (issuePurchaseToken emptyStore ⟨some "p1", some "payment.captured"⟩ "t1" 7 false).2
        (some (issuePurchaseToken emptyStore ⟨some "p1", some "payment.captured"⟩ "t1" 7 false).1.token) =
      (some ⟨7, ⟨some "p1", some "payment.captured"⟩⟩, [.get (purchaseKey "t1")]) :=
  issue_then_verify_roundtrip emptyStore _ "t1" 7 false (by decide)

/-- C5: `verifyPurchaseToken` rejects every bad input without throwing, in
order: a `null` token with no store access, an empty token with no store
access, a token whose key is absent (never issued or expired), and a token
whose stored record does not parse as JSON — each returns `null`. Totality of
the Lean function is the no-throw property. -/
theorem verifyPurchaseToken_rejects_totally :
    (∀ s : Store, verifyPurchaseToken s none = (none, [])) ∧
    (∀ s : Store, verifyPurchaseToken s (some "") = (none, [])) ∧
    (∀ (s : Store) (t : String), t ≠ "" → s (purchaseKey t) = none →
      verifyPurchaseToken s (some t) = (none, [.get (purchaseKey t)])) ∧
    (∀ (s : Store) (t g : String) (ttl : Nat), t ≠ "" →
      s (purchaseKey t) = some ⟨.rawStr g, ttl⟩ →
      verifyPurchaseToken s (some t) = (none, [.get (purchaseKey t)])) := by
  refine ⟨fun s => rfl, fun s => rfl, ?_, ?_⟩
  · intro s t ht hk
    simp [verifyPurchaseToken, jsTruthy, ht, hk]
  · intro s t g ttl ht hk
    simp [verifyPurchaseToken, jsTruthy, ht, hk, parsePurchaseJson]

/-- Witness for C5: a never-issued token on the empty store and a corrupted
record are both rejected, with exactly one lookup each. -/
theorem verifyPurchaseToken_rejects_totally_witness :
    verifyPurchaseToken emptyStore (some "ghost") = (none, [.get (purchaseKey "ghost")]) ∧
    verifyPurchaseToken (sset emptyStore (purchaseKey "tok") ⟨.rawStr "NOT JSON", 9⟩)
        (some "tok") = (none, [.get (purchaseKey "tok")]) :=
  ⟨verifyPurchaseToken_rejects_totally.2.2.1 emptyStore "ghost" (by decide) rfl,
   verifyPurchaseToken_rejects_totally.2.2.2 _ "tok" "NOT JSON" 9 (by decide) rfl⟩

/-- C8: a failing conditional mapping write never aborts issuance. With the
mapping write throwing, `issuePurchaseToken` still returns the freshly minted
token with the purchase record stored under its TTL, and the mapping key is
left exactly as it was. -/
theorem issue_mapping_write_failure_swallowed
    (s : Store) (meta : Meta) (pid freshToken : String) (now : Nat)
    (hpid : jsTruthy meta.paymentId = some pid) :
    issuePurchaseToken s meta freshToken now true =
      ({ token := freshToken, createdMapping := false },
       sset s (purchaseKey freshToken) ⟨.purchaseRec ⟨now, meta⟩, PURCHASE_TTL⟩) ∧
    (issuePurchaseToken s meta freshToken now true).2 (paymentKey pid)
      = s (paymentKey pid) := by
  constructor
  · simp [issuePurchaseToken, hpid]
  · simp [issuePurchaseToken, hpid]
    rw [sset_other _ _ _ _ (purchaseKey_ne_paymentKey freshToken pid).symm]

/-- Witness for C8: with the mapping write failing, issuing for `p1` on the
empty store still returns `t1` and leaves the mapping key absent. -/
theorem issue_mapping_write_failure_swallowed_witness :
    issuePurchaseToken emptyStore ⟨some "p1", none⟩ "t1" 1 true =
      ({ token := "t1", createdMapping := false },
       sset emptyStore (purchaseKey "t1") ⟨.purchaseRec ⟨1, ⟨some "p1", none⟩⟩, PURCHASE_TTL⟩) ∧
    (issuePurchaseToken emptyStore ⟨some "p1", none⟩ "t1" 1 true).2 (paymentKey "p1")
      = emptyStore (paymentKey "p1") :=
  issue_mapping_write_failure_swallowed emptyStore ⟨some "p1", none⟩ "p1" "t1" 1 rfl

/-- C2: the strict claim-return on a payment identifier with no mapping. The
handler answers 410 Gone, returns the store untouched, and its operation
trace is a single read of the mapping key — no write of any kind, so no token
and no mapping is ever created on this path. -/
theorem claimReturn_absent_mapping_gone_no_write
    (s : Store) (q : ClaimQuery) (pid : String)
    (hq : extractPaymentId q = some pid)
    (hnone : s (paymentKey pid) = none) :
    claimReturn s q = (.gone, s, [.get (paymentKey pid)]) := by
  simp [claimReturn, hq, hnone]

/-- Witness for C2: a request carrying only `razorpay_payment_id=p1` against
the empty store gets 410 with one read and no write. -/
theorem claimReturn_absent_mapping_gone_no_write_witness :
    claimReturn emptyStore { razorpay_payment_id := some "p1" } =
      (.gone, emptyStore, [.get (paymentKey "p1")]) :=
  claimReturn_absent_mapping_gone_no_write emptyStore
    { razorpay_payment_id := some "p1" } "p1" rfl rfl

/-- C7: the strict claim-return on a payment identifier whose mapping holds a
token. The handler redirects to the claim URL embedding exactly that token,
returns the store untouched — so neither the mapping entry nor any purchase
record nor any TTL changes — and its trace is a single read. -/
theorem claimReturn_present_mapping_redirects_frame
    (s : Store) (q : ClaimQuery) (pid tok : String) (ttl : Nat)
    (hq : extractPaymentId q = some pid)
    (hsome : s (paymentKey pid) = some ⟨.rawStr tok, ttl⟩) :
    claimReturn s q = (.redirectTo (claimUrlOf tok), s, [.get (paymentKey pid)]) := by
  simp [claimReturn, hq, hsome, svText]

/-- Witness for C7: with the mapping `p1 → t1` in the store and 37 seconds of
TTL left, claim-return redirects to the claim URL of `t1` and changes
nothing. -/
theorem claimReturn_present_mapping_redirects_frame_witness :
    claimReturn (sset emptyStore (paymentKey "p1") ⟨.rawStr "t1", 37⟩)
        { payment_id := some "p1" } =
      (.redirectTo (claimUrlOf "t1"),
       sset emptyStore (paymentKey "p1") ⟨.rawStr "t1", 37⟩,
       [.get (paymentKey "p1")]) :=
  claimReturn_present_mapping_redirects_frame _ { payment_id := some "p1" }
    "p1" "t1" 37 rfl rfl

/-- C3: webhook signature verification with a configured secret. First
conjunct: a request whose signature header (absent defaulting to the empty
string) differs from the HMAC-SHA256 hex digest of the raw body is rejected
with 400 and the store is untouched — no token is minted. Second conjunct: a
body accompanied by its correct digest is never rejected as a bad signature.
Third conjunct: a single-byte mutation of a correctly signed body is rejected,
given that the mutation changes the digest (HMAC-SHA256 collision freedom at
this pair, discharged concretely in the witness). -/
theorem webhook_signature_check :
    (∀ (secret : String) (s : Store) (req : WebhookReq) (t : String) (now : Nat)
        (f : Bool), secret ≠ "" →
      req.signatureHeader.getD "" ≠ hmacSha256Hex secret req.rawBody →
      razorpayWebhook secret s req t now f = (.invalidSignature, s)) ∧
    (∀ (secret : String) (s : Store) (req : WebhookReq) (t : String) (now : Nat)
        (f : Bool), secret ≠ "" →
      req.signatureHeader.getD "" = hmacSha256Hex secret req.rawBody →
      (razorpayWebhook secret s req t now f).1 ≠ .invalidSignature) ∧
    (∀ (secret : String) (s : Store) (req : WebhookReq) (t : String) (now : Nat)
        (f : Bool) (i v : Nat), secret ≠ "" →
      i < req.rawBody.length →
      req.signatureHeader = some (hmacSha256Hex secret req.rawBody) →
      hmacSha256Hex secret (req.rawBody.set i v) ≠ hmacSha256Hex secret req.rawBody →
      razorpayWebhook secret s { req with rawBody := req.rawBody.set i v } t now f
        = (.invalidSignature, s)) := by
  refine ⟨?_, ?_, ?_⟩
  · intro secret s req t now f hsec hsig
    simp [razorpayWebhook, hsec, hsig]
  · intro secret s req t now f hsec hsig
    cases hm : s (paymentKey (webhookPaymentId req now)) with
    | some e => simp [razorpayWebhook, hsec, hsig, hm]
    | none => simp [razorpayWebhook, hsec, hsig, hm]
  · intro secret s req t now f i v hsec hi hsig hmut
    have hne : ({ req with rawBody := req.rawBody.set i v } :
        WebhookReq).signatureHeader.getD ""
        ≠ hmacSha256Hex secret (req.rawBody.set i v) := by
      simp [hsig]
      intro hEq
      exact hmut hEq.symm
    simp [razorpayWebhook, hsec] at hne ⊢
    simp [hne]

/-- Witness for C3 on the spec's example: secret `s` and body
`{"event":"payment.captured"}`. An absent signature is rejected, the correct
digest is accepted, and flipping the first body byte to `X` is rejected. -/
theorem webhook_signature_check_witness :
    (razorpayWebhook "s" emptyStore
        { signatureHeader := none,
          rawBody := utf8Bytes "\x7b\"event\":\"payment.captured\"\x7d" }
        "t1" 1 false
      = (.invalidSignature, emptyStore)) ∧
    ((razorpayWebhook "s" emptyStore
        { signatureHeader := some (hmacSha256Hex "s"
            (utf8Bytes "\x7b\"event\":\"payment.captured\"\x7d")),
          rawBody := utf8Bytes "\x7b\"event\":\"payment.captured\"\x7d" }
        "t1" 1 false).1
      ≠ .invalidSignature) ∧
    (razorpayWebhook "s" emptyStore
        { signatureHeader := some (hmacSha256Hex "s"
            (utf8Bytes "\x7b\"event\":\"payment.captured\"\x7d")),
          rawBody := (utf8Bytes "\x7b\"event\":\"payment.captured\"\x7d").set 0 88 }
        "t1" 1 false
      = (.invalidSignature, emptyStore)) :=
  ⟨webhook_signature_check.1 "s" emptyStore _ "t1" 1 false (by decide) (by decide),
   webhook_signature_check.2.1 "s" emptyStore _ "t1" 1 false (by decide) rfl,
   webhook_signature_check.2.2 "s" emptyStore
     { signatureHeader := some (hmacSha256Hex "s"
         (utf8Bytes "\x7b\"event\":\"payment.captured\"\x7d")),
       rawBody := utf8Bytes "\x7b\"event\":\"payment.captured\"\x7d" }
     "t1" 1 false 0 88 (by decide) (by decide) rfl (by decide)⟩

/-- C9: with no webhook secret configured, signature verification is skipped
entirely: two requests equal in everything but the signature header behave
identically — same response, same store — and neither is rejected as a bad
signature, so the signature input has no influence on the outcome. -/
theorem webhook_no_secret_ignores_signature
    (s : Store) (req : WebhookReq) (sig2 : Option String) (t : String)
    (now : Nat) (f : Bool) :
    razorpayWebhook "" s req t now f
      = razorpayWebhook "" s { req with signatureHeader := sig2 } t now f ∧
    (razorpayWebhook "" s req t now f).1 ≠ .invalidSignature := by
  constructor
  · simp [razorpayWebhook, webhookPaymentId]
  · cases hm : s (paymentKey (webhookPaymentId req now)) with
    | some e => simp [razorpayWebhook, hm]
    | none => simp [razorpayWebhook, hm]

/-- Helper: a `/generate` call whose purchase token verifies and whose
supplied view token exists takes the update-in-place branch. -/
theorem generate_updates_in_place
    (s : Store) (req : GenReq) (pt : String) (rec : PurchaseRec) (evt : String)
    (e : Entry) (fresh : String) (now : Nat)
    (h1 : jsTruthy (genPurchaseToken req) = some pt)
    (h2 : (verifyPurchaseToken s (some pt)).1 = some rec)
    (h3 : jsTruthy req.viewToken = some evt)
    (h4 : s (viewKey evt) = some e) :
    generate s req fresh now =
      (.ok evt (viewUrlOf evt),
       sset s (viewKey evt)
         ⟨.viewRec (.updated ((jsTruthy req.setup).getD emptySetup) now), VIEW_TTL⟩) := by
  simp [generate, h1, h2, h3, updateViewToken, h4]

/-- Helper: a `/generate` call whose purchase token verifies mints a fresh
view token when the supplied view token's record is absent or when no view
token is supplied. -/
theorem generate_mints_fresh
    (s : Store) (req : GenReq) (pt : String) (rec : PurchaseRec)
    (fresh : String) (now : Nat)
    (h1 : jsTruthy (genPurchaseToken req) = some pt)
    (h2 : (verifyPurchaseToken s (some pt)).1 = some rec)
    (h3 : (∃ evt, jsTruthy req.viewToken = some evt ∧ s (viewKey evt) = none) ∨
      jsTruthy req.viewToken = none) :
    generate s req fresh now =
      (.ok fresh (viewUrlOf fresh),
       sset s (viewKey fresh)
         ⟨.viewRec (.made ((jsTruthy req.setup).getD emptySetup) rec now), VIEW_TTL⟩) := by
  rcases h3 with ⟨evt, h3, h4⟩ | h3
  · simp [generate, h1, h2, h3, updateViewToken, h4, createViewToken]
  · simp [generate, h1, h2, h3, createViewToken]

/-- C6: the view-token exchange's update-or-mint behaviour. First conjunct:
with an existing view token whose record is present, the record is
overwritten with the new setup payload and its TTL refreshed to the full view
TTL, and the same token id is returned. Second conjunct: with an existing
view token whose record is absent, the update degrades to minting a fresh
token, never an error. Third conjunct: with no view token supplied, a fresh
one is minted. Fourth conjunct: two consecutive calls carrying the same
existing valid view token both return that id and the payload reflects the
second call's input. -/
theorem generate_update_or_mint :
    (∀ (s : Store) (req : GenReq) (pt : String) (rec : PurchaseRec) (evt : String)
        (e : Entry) (fresh : String) (now : Nat),
      jsTruthy (genPurchaseToken req) = some pt →
      (verifyPurchaseToken s (some pt)).1 = some rec →
      jsTruthy req.viewToken = some evt →
      s (viewKey evt) = some e →
      generate s req fresh now =
        (.ok evt (viewUrlOf evt),
         sset s (viewKey evt)
           ⟨.viewRec (.updated ((jsTruthy req.setup).getD emptySetup) now),
            VIEW_TTL⟩)) ∧
    (∀ (s : Store) (req : GenReq) (pt : String) (rec : PurchaseRec) (evt : String)
        (fresh : String) (now : Nat),
      jsTruthy (genPurchaseToken req) = some pt →
      (verifyPurchaseToken s (some pt)).1 = some rec →
      jsTruthy req.viewToken = some evt →
      s (viewKey evt) = none →
      generate s req fresh now =
        (.ok fresh (viewUrlOf fresh),
         sset s (viewKey fresh)
           ⟨.viewRec (.made ((jsTruthy req.setup).getD emptySetup) rec now),
            VIEW_TTL⟩)) ∧
    (∀ (s : Store) (req : GenReq) (pt : String) (rec : PurchaseRec)
        (fresh : String) (now : Nat),
      jsTruthy (genPurchaseToken req) = some pt →
      (verifyPurchaseToken s (some pt)).1 = some rec →
      jsTruthy req.viewToken = none →
      generate s req fresh now =
        (.ok fresh (viewUrlOf fresh),
         sset s (viewKey fresh)
           ⟨.viewRec (.made ((jsTruthy req.setup).getD emptySetup) rec now),
            VIEW_TTL⟩)) ∧
    (∀ (s : Store) (req1 req2 : GenReq) (pt1 pt2 : String)
        (rec1 rec2 : PurchaseRec) (evt : String) (e : Entry)
        (fresh1 fresh2 : String) (n1 n2 : Nat),
      jsTruthy (genPurchaseToken req1) = some pt1 →
      (verifyPurchaseToken s (some pt1)).1 = some rec1 →
      jsTruthy req1.viewToken = some evt →
      s (viewKey evt) = some e →
      jsTruthy (genPurchaseToken req2) = some pt2 →
      (verifyPurchaseToken s (some pt2)).1 = some rec2 →
      jsTruthy req2.viewToken = some evt →
      (generate (generate s req1 fresh1 n1).2 req2 fresh2 n2).1
        = .ok evt (viewUrlOf evt) ∧
      (generate (generate s req1 fresh1 n1).2 req2 fresh2 n2).2 (viewKey evt)
        = some ⟨.viewRec (.updated ((jsTruthy req2.setup).getD emptySetup) n2),
          VIEW_TTL⟩) := by
  refine ⟨generate_updates_in_place, ?_, ?_, ?_⟩
  · intro s req pt rec evt fresh now h1 h2 h3 h4
    exact generate_mints_fresh s req pt rec fresh now h1 h2 (.inl ⟨evt, h3, h4⟩)
  · intro s req pt rec fresh now h1 h2 h3
    exact generate_mints_fresh s req pt rec fresh now h1 h2 (.inr h3)
  · intro s req1 req2 pt1 pt2 rec1 rec2 evt e fresh1 fresh2 n1 n2
      h1 h2 h3 h4 h5 h6 h7
    have hpt2 : pt2 ≠ "" := by
      intro hEq
      rw [hEq] at h6
      simp [verifyPurchaseToken, jsTruthy] at h6
    have hg1 := generate_updates_in_place s req1 pt1 rec1 evt e fresh1 n1 h1 h2 h3 h4
    rw [hg1]
    have hverify2 : (verifyPurchaseToken
        (sset s (viewKey evt)
          ⟨.viewRec (.updated ((jsTruthy req1.setup).getD emptySetup) n1), VIEW_TTL⟩)
        (some pt2)).1 = some rec2 := by
      have hkey : sset s (viewKey evt)
          ⟨.viewRec (.updated ((jsTruthy req1.setup).getD emptySetup) n1), VIEW_TTL⟩
          (purchaseKey pt2) = s (purchaseKey pt2) :=
        sset_other _ _ _ _ (purchaseKey_ne_viewKey pt2 evt)
      simp only [verifyPurchaseToken, jsTruthy, hpt2, if_neg hpt2, hkey] at h6 ⊢
      exact h6
    have hg2 := generate_updates_in_place _ req2 pt2 rec2 evt
      ⟨.viewRec (.updated ((jsTruthy req1.setup).getD emptySetup) n1), VIEW_TTL⟩
      fresh2 n2 h5 hverify2 h7 (sset_self _ _ _)
    rw [hg2]
    exact ⟨rfl, sset_self _ _ _⟩

/-- Witness for C6: on a store holding purchase token `pt` and view record
`v1`, a call with view token `v1` updates in place; with unknown view token
`v9` it mints `fresh`; with no view token it mints `fresh`; and two calls with
`v1` return `v1` with the second payload winning. -/
theorem generate_update_or_mint_witness :
    (generate
        (sset (sset emptyStore (purchaseKey "pt") ⟨.purchaseRec ⟨1, ⟨some "p1", none⟩⟩, 10⟩)
          (viewKey "v1") ⟨.viewRec (.updated "old" 0), 5⟩)
        { authorization := some "Bearer pt", setup := some "new", viewToken := some "v1" }
        "fresh" 9 =
      (.ok "v1" (viewUrlOf "v1"),
       sset (sset (sset emptyStore (purchaseKey "pt") ⟨.purchaseRec ⟨1, ⟨some "p1", none⟩⟩, 10⟩)
          (viewKey "v1") ⟨.viewRec (.updated "old" 0), 5⟩)
         (viewKey "v1") ⟨.viewRec (.updated "new" 9), VIEW_TTL⟩)) ∧
    (generate
        (sset (sset emptyStore (purchaseKey "pt") ⟨.purchaseRec ⟨1, ⟨some "p1", none⟩⟩, 10⟩)
          (viewKey "v1") ⟨.viewRec (.updated "old" 0), 5⟩)
        { authorization := some "Bearer pt", setup := some "new", viewToken := some "v9" }
        "fresh" 9 =
      (.ok "fresh" (viewUrlOf "fresh"),
       sset (sset (sset emptyStore (purchaseKey "pt") ⟨.purchaseRec ⟨1, ⟨some "p1", none⟩⟩, 10⟩)
          (viewKey "v1") ⟨.viewRec (.updated "old" 0), 5⟩)
         (viewKey "fresh")
         ⟨.viewRec (.made "new" ⟨1, ⟨some "p1", none⟩⟩ 9), VIEW_TTL⟩)) ∧
    ((generate
        (generate
          (sset (sset emptyStore (purchaseKey "pt") ⟨.purchaseRec ⟨1, ⟨some "p1", none⟩⟩, 10⟩)
            (viewKey "v1") ⟨.viewRec (.updated "old" 0), 5⟩)
          { authorization := some "Bearer pt", setup := some "first", viewToken := some "v1" }
          "fa" 8).2
        { authorization := some "Bearer pt", setup := some "second", viewToken := some "v1" }
        "fb" 9).2 (viewKey "v1")
      = some ⟨.viewRec (.updated "second" 9), VIEW_TTL⟩) :=
  ⟨generate_update_or_mint.1 _ _ "pt" ⟨1, ⟨some "p1", none⟩⟩ "v1" _ "fresh" 9
     rfl rfl rfl rfl,
   generate_update_or_mint.2.1 _ _ "pt" ⟨1, ⟨some "p1", none⟩⟩ "v9" "fresh" 9
     rfl rfl rfl rfl,
   (generate_update_or_mint.2.2.2
     (sset (sset emptyStore (purchaseKey "pt") ⟨.purchaseRec ⟨1, ⟨some "p1", none⟩⟩, 10⟩)
       (viewKey "v1") ⟨.viewRec (.updated "old" 0), 5⟩)
     { authorization := some "Bearer pt", setup := some "first", viewToken := some "v1" }
     { authorization := some "Bearer pt", setup := some "second", viewToken := some "v1" }
     "pt" "pt" ⟨1, ⟨some "p1", none⟩⟩
     ⟨1, ⟨some "p1", none⟩⟩ "v1" ⟨.viewRec (.updated "old" 0), 5⟩ "fa" "fb" 8 9
     rfl rfl rfl rfl rfl rfl rfl).2⟩

/-- C10: `/generate` accepts the purchase token from two places. With no
`Bearer ` authorization header the handler falls back to the body's
`purchaseToken` field, and it responds 401 `missing_purchase_token` exactly
when that fallback is also absent or empty. -/
theorem generate_token_fallback_401 :
    (∀ req : GenReq, ¬strStartsWith (req.authorization.getD "") "Bearer " →
      genPurchaseToken req = req.purchaseToken) ∧
    (∀ (s : Store) (req : GenReq) (fresh : String) (now : Nat),
      ¬strStartsWith (req.authorization.getD "") "Bearer " →
      ((generate s req fresh now).1 = .missingPurchaseToken ↔
        jsTruthy req.purchaseToken = none)) := by
  have hgen : ∀ req : GenReq, ¬strStartsWith (req.authorization.getD "") "Bearer " →
      genPurchaseToken req = req.purchaseToken := by
    intro req h
    simp [genPurchaseToken, h]
  refine ⟨hgen, ?_⟩
  intro s req fresh now h
  cases hj : jsTruthy req.purchaseToken with
  | none => simp [generate, hgen req h, hj]
  | some pt =>
    cases hv : (verifyPurchaseToken s (some pt)).1 with
    | none => simp [generate, hgen req h, hj, hv]
    | some rec =>
      cases hvt : jsTruthy req.viewToken with
      | none => simp [generate, hgen req h, hj, hv, hvt, createViewToken]
      | some evt =>
        by_cases hex : (s (viewKey evt)).isSome
        · simp [generate, hgen req h, hj, hv, hvt, updateViewToken, hex]
        · simp [generate, hgen req h, hj, hv, hvt, updateViewToken, hex,
            createViewToken]

/-- Witness for C10: with no authorization header, a body token is picked up
(the 401 test is false), and with neither source present the handler answers
401. -/
theorem generate_token_fallback_401_witness :
    genPurchaseToken { purchaseToken := some "pt" } = some "pt" ∧
    ((generate emptyStore { purchaseToken := some "pt" } "f" 1).1
        = .missingPurchaseToken ↔ jsTruthy (some "pt") = none) ∧
    ((generate emptyStore {} "f" 1).1 = .missingPurchaseToken ↔
      jsTruthy none = none) :=
  ⟨generate_token_fallback_401.1 { purchaseToken := some "pt" } (by decide),
   generate_token_fallback_401.2 emptyStore { purchaseToken := some "pt" } "f" 1
     (by decide),
   generate_token_fallback_401.2 emptyStore {} "f" 1 (by decide)⟩

end UploaderServer

